import Mathlib

/-!
Shallow embedding of the AgentMolt SDK core (src/agentmolt/store.py,
src/agentmolt/local.py, src/agentmolt/client.py, src/agentmolt/models.py)
and proofs about its policy evaluator, entity store, and transport retry
pipeline.

Modelling conventions:
- SQLite tables become Lean lists kept in insertion order; `ORDER BY
  created_at` (ascending, for policies) is modelled as list order, since
  timestamps are assigned monotonically by `_now` at insertion time.
- Generated values (`_uid`, `_now`) are passed as explicit arguments: the
  uuid generator's uniqueness becomes a freshness hypothesis where needed.
- Python `float` values (SQLite REAL) are modelled as exact fractions
  (the `Frac` type below); Python `int` as `Int`.
- A raised Python exception is an `Except.error` carrying a `PyErr`.
-/

deriving instance DecidableEq for Except

namespace AgentMolt

/-- Exact rational number with numerator and positive denominator, kept
unnormalized; models a Python float (SQLite REAL) value. Every numeric
value these claims touch is a small decimal, represented exactly;
binary floating-point rounding is outside their scope. Comparisons
cross-multiply, so they agree with the value ordering for the positive
denominators produced here. -/
structure Frac where
  num : Int
  den : Nat
deriving DecidableEq, Repr

/-- Embedding of the Python integer literal 0 as a float. -/
def Frac.zero : Frac := ⟨0, 1⟩

def Frac.ofNat (n : Nat) : Frac := ⟨(n : Int), 1⟩

/-- Python `a + b` on floats. -/
def Frac.add (a b : Frac) : Frac :=
  ⟨a.num * (b.den : Int) + b.num * (a.den : Int), a.den * b.den⟩

/-- Python `a * b` on floats. -/
def Frac.mul (a b : Frac) : Frac := ⟨a.num * b.num, a.den * b.den⟩

/-- Python `-a` on floats. -/
def Frac.neg (a : Frac) : Frac := ⟨-a.num, a.den⟩

/-- Python `a <= b` on floats. -/
def Frac.le (a b : Frac) : Bool := a.num * (b.den : Int) ≤ b.num * (a.den : Int)

/-- Python `a < b` on floats. -/
def Frac.lt (a b : Frac) : Bool := a.num * (b.den : Int) < b.num * (a.den : Int)

/-- Python `a == b` on floats: value equality of representations. -/
def Frac.eqv (a b : Frac) : Bool := a.num * (b.den : Int) == b.num * (a.den : Int)

/-- Python exceptions raised by the SDK: ValueError from numeric parsing,
and the exception taxonomy of exceptions.py (message plus optional
status_code). -/
inductive PyErr where
  | valueError (msg : String)
  | agentMoltError (msg : String) (status_code : Option Nat)
  | authenticationError (msg : String) (status_code : Option Nat)
  | notFoundError (msg : String) (status_code : Option Nat)
deriving DecidableEq, Repr

/-- Row of the agents table / models.Agent dataclass. Metadata is kept as
its serialized JSON text. -/
structure Agent where
  id : String
  name : String
  model : String
  status : String
  metadata : String
  created_at : String
  updated_at : String
deriving DecidableEq, Repr

/-- Row of the events table / models.Event dataclass. -/
structure Event where
  id : String
  agent_id : String
  action : String
  target : String
  status : String
  metadata : String
  created_at : String
deriving DecidableEq, Repr

/-- Row of the metrics table / models.Metric dataclass. tokens_used,
tool_calls, files_accessed are Python ints (INTEGER), cost a Python float
(REAL, modelled as Frac). -/
structure Metric where
  id : String
  agent_id : String
  tokens_used : Int
  cost : Frac
  tool_calls : Int
  files_accessed : Int
  metadata : String
  created_at : String
deriving DecidableEq, Repr

/-- Row of the policies table. -/
structure Policy where
  id : String
  rule_type : String
  value : String
  agent_id : String
  created_at : String
deriving DecidableEq, Repr

/-- models.PolicyResult dataclass. -/
structure PolicyResult where
  allowed : Bool
  reason : String
  policy_id : Option String
deriving DecidableEq, Repr

/-- Result dict of Store.kill_agent. -/
structure KillResult where
  status : String
  agent_id : String
deriving DecidableEq, Repr

/-- Dict returned by Store.get_metrics_summary. -/
structure MetricsSummary where
  tokens_used : Int
  cost : Frac
  tool_calls : Int
  count : Nat
deriving DecidableEq, Repr

/-- The four tables of the SQLite database (store.py _init_db), each in
insertion order. -/
structure Store where
  agents : List Agent
  events : List Event
  metrics : List Metric
  policies : List Policy
deriving DecidableEq, Repr

def emptyStore : Store := ⟨[], [], [], []⟩

/-- Single-quote character, used by the f-strings in check_policy. -/
def sq : String := String.singleton (Char.ofNat 39)

/-- Numeric value of a run of ASCII digit characters. -/
def natOfDigits (cs : List Char) : Nat :=
  cs.foldl (fun n c => 10 * n + (c.toNat - 48)) 0

/-- Modelled from Python's built-in int(): optional sign followed by a
nonempty run of digits; anything else raises ValueError (here: none).
Surrounding whitespace and underscore separators are omitted from the
model. -/
def pyInt (s : String) : Option Int :=
  match s.toList with
  | '-' :: cs =>
      if !cs.isEmpty && cs.all Char.isDigit then some (-(natOfDigits cs : Int)) else none
  | '+' :: cs =>
      if !cs.isEmpty && cs.all Char.isDigit then some ((natOfDigits cs : Int)) else none
  | cs =>
      if !cs.isEmpty && cs.all Char.isDigit then some ((natOfDigits cs : Int)) else none

/-- Unsigned part of a Python float literal: digits with an optional dot,
at least one digit overall; the value ip.frac is the exact rational
(ip * 10^k + frac) / 10^k. -/
def pyFloatUnsigned (cs : List Char) : Option Frac :=
  let p := cs.span (fun c => c != '.')
  match p.2 with
  | [] =>
      if !p.1.isEmpty && p.1.all Char.isDigit then some (Frac.ofNat (natOfDigits p.1)) else none
  | _ :: frac =>
      if (!p.1.isEmpty || !frac.isEmpty) && p.1.all Char.isDigit && frac.all Char.isDigit then
        some ⟨(natOfDigits p.1 * 10 ^ frac.length + natOfDigits frac : Nat), 10 ^ frac.length⟩
      else none

/-- Modelled from Python's built-in float(): decimal numeral with optional
sign and fractional part; exponent, infinity, nan and whitespace forms are
omitted. A string outside this grammar raises ValueError (here: none). -/
def pyFloat (s : String) : Option Frac :=
  match s.toList with
  | '-' :: cs => (pyFloatUnsigned cs).map Frac.neg
  | '+' :: cs => pyFloatUnsigned cs
  | cs => pyFloatUnsigned cs

/-- Store.create_agent: inserts a row with the generated id `aid` and
timestamp `now`, initial status "idle", and returns the Agent record
(store.py lines 88-102). -/
def Store.create_agent (s : Store) (aid now : String) (name : String) (model : String)
    (metadata : String) : Store × Agent :=
  let a : Agent := ⟨aid, name, model, "idle", metadata, now, now⟩
  ({ s with agents := s.agents ++ [a] }, a)

/-- Store.get_agent: point lookup by id (SELECT ... WHERE id=? fetchone;
the id column is the primary key, store.py lines 114-124). -/
def Store.get_agent (s : Store) (agent_id : String) : Option Agent :=
  s.agents.find? (fun a => a.id == agent_id)

/-- Store.update_agent_status: UPDATE agents SET status, updated_at WHERE
id=?, then re-reads the agent (store.py lines 126-135). -/
def Store.update_agent_status (s : Store) (agent_id status now : String) :
    Store × Option Agent :=
  let s2 : Store :=
    { s with agents := s.agents.map (fun a =>
        if a.id == agent_id then { a with status := status, updated_at := now } else a) }
  (s2, s2.get_agent agent_id)

/-- Store.kill_agent: updates the status to "killed" and returns the
result dict (store.py lines 137-139). -/
def Store.kill_agent (s : Store) (agent_id now : String) : Store × KillResult :=
  ((s.update_agent_status agent_id "killed" now).1, ⟨"killed", agent_id⟩)

/-- Store.create_event (store.py lines 143-159). -/
def Store.create_event (s : Store) (eid now agent_id action target status metadata : String) :
    Store × Event :=
  let e : Event := ⟨eid, agent_id, action, target, status, metadata, now⟩
  ({ s with events := s.events ++ [e] }, e)

/-- Store.create_metric: inserts the caller-supplied values verbatim and
returns the Metric record (store.py lines 173-190). -/
def Store.create_metric (s : Store) (mid now agent_id : String) (tokens_used : Int)
    (cost : Frac) (tool_calls : Int) (files_accessed : Int) (metadata : String) :
    Store × Metric :=
  let m : Metric := ⟨mid, agent_id, tokens_used, cost, tool_calls, files_accessed, metadata, now⟩
  ({ s with metrics := s.metrics ++ [m] }, m)

/-- Store.get_metrics_summary: SELECT COALESCE(SUM(tokens_used),0),
COALESCE(SUM(cost),0), COALESCE(SUM(tool_calls),0), COUNT(*) over the
agent's metric rows (store.py lines 192-203). Summation over the empty
set yields the COALESCE default 0. -/
def Store.get_metrics_summary (s : Store) (agent_id : String) : MetricsSummary :=
  let rows := s.metrics.filter (fun m => m.agent_id == agent_id)
  { tokens_used := (rows.map (fun m => m.tokens_used)).foldl (· + ·) 0
    cost := (rows.map (fun m => m.cost)).foldl Frac.add Frac.zero
    tool_calls := (rows.map (fun m => m.tool_calls)).foldl (· + ·) 0
    count := rows.length }

/-- Store.add_policy: inserts a policy row (store.py lines 207-221). The
Python return dict carries id, rule_type, value, agent_id; we return the
stored row. -/
def Store.add_policy (s : Store) (pid now rule_type value agent_id : String) :
    Store × Policy :=
  let p : Policy := ⟨pid, rule_type, value, agent_id, now⟩
  ({ s with policies := s.policies ++ [p] }, p)

/-- Store.list_policies: with a nonempty agent_id, rules scoped to that
agent OR globally (agent_id empty), in creation order; with an empty
agent_id, all rules (store.py lines 223-235). -/
def Store.list_policies (s : Store) (agent_id : String) : List Policy :=
  if agent_id != "" then
    s.policies.filter (fun p => p.agent_id == agent_id || p.agent_id == "")
  else
    s.policies

/-- Reason string of a denylist denial (store.py line 242). -/
def denyReason (action pid : String) : String :=
  "Action " ++ sq ++ action ++ sq ++ " is denied by policy " ++ pid

/-- Reason string of an allowlist denial (store.py line 248). -/
def notInAllowlistReason (action : String) : String :=
  "Action " ++ sq ++ action ++ sq ++ " not in allowlist"

/-- Rendering of a Python number into an f-string; stands for Python's
str() on the parsed float, exact digits abstracted. -/
def fmtNum (q : Frac) : String := toString q.num ++ "/" ++ toString q.den

/-- Reason string of a cost-limit denial (store.py line 256). -/
def costReason (limit cost : Frac) : String :=
  "Cost limit $" ++ fmtNum limit ++ " exceeded ($" ++ fmtNum cost ++ ")"

/-- Reason string of a token-limit denial (store.py line 261). -/
def tokenReason (limit tokens : Int) : String :=
  "Token limit " ++ toString limit ++ " exceeded (" ++ toString tokens ++ ")"

/-- First loop of Store.check_policy (lines 240-242): the first denylist
rule whose value equals the action denies immediately. -/
def denylistPass (policies : List Policy) (action : String) : Option PolicyResult :=
  match policies.find? (fun p => p.rule_type == "denylist" && action == p.value) with
  | some p => some ⟨false, denyReason action p.id, some p.id⟩
  | none => none

/-- Values of all allowlist rules in scope (store.py line 246). -/
def allowlistValues (policies : List Policy) : List String :=
  (policies.filter (fun pp => pp.rule_type == "allowlist")).map (fun pp => pp.value)

/-- Second loop of Store.check_policy (lines 243-249): at the first
allowlist rule, if the action is not among the allowlist values in scope,
deny attributing that rule; otherwise break (no decision). -/
def allowlistPass (policies : List Policy) (action : String) : Option PolicyResult :=
  match policies.find? (fun p => p.rule_type == "allowlist") with
  | some p =>
      if (allowlistValues policies).contains action then none
      else some ⟨false, notInAllowlistReason action, some p.id⟩
  | none => none

/-- Third loop of Store.check_policy (lines 251-261): each cost_limit or
token_limit rule in order fetches the metric summary, parses its value
(float / int, ValueError on a malformed string), and denies when the
accumulated value reaches the threshold. -/
def limitsPass (s : Store) (agent_id : String) : List Policy → Except PyErr (Option PolicyResult)
  | [] => Except.ok none
  | p :: rest =>
    if p.rule_type == "cost_limit" then
      let summary := s.get_metrics_summary agent_id
      match pyFloat p.value with
      | none => Except.error (PyErr.valueError p.value)
      | some limit =>
        if Frac.le limit summary.cost then
          Except.ok (some ⟨false, costReason limit summary.cost, some p.id⟩)
        else limitsPass s agent_id rest
    else if p.rule_type == "token_limit" then
      let summary := s.get_metrics_summary agent_id
      match pyInt p.value with
      | none => Except.error (PyErr.valueError p.value)
      | some limit =>
        if summary.tokens_used ≥ limit then
          Except.ok (some ⟨false, tokenReason limit summary.tokens_used, some p.id⟩)
        else limitsPass s agent_id rest
    else limitsPass s agent_id rest

/-- Store.check_policy (store.py lines 237-262): denylist pass, then
allowlist pass, then cost/token limit pass over the rules in scope, in
creation order; default allow. An Except.error is a raised ValueError
from parsing a malformed limit value. -/
def Store.check_policy (s : Store) (agent_id action : String) : Except PyErr PolicyResult :=
  let policies := s.list_policies agent_id
  match denylistPass policies action with
  | some r => Except.ok r
  | none =>
    match allowlistPass policies action with
    | some r => Except.ok r
    | none =>
      match limitsPass s agent_id policies with
      | Except.error e => Except.error e
      | Except.ok (some r) => Except.ok r
      | Except.ok none => Except.ok ⟨true, "allowed", none⟩

/-- AgentMoltLocal.kill (local.py lines 60-64): look the agent up, raise
NotFoundError if absent (state unchanged), else Store.kill_agent. -/
def localKill (s : Store) (agent_id now : String) : Store × Except PyErr KillResult :=
  match s.get_agent agent_id with
  | none => (s, Except.error (PyErr.notFoundError ("Agent " ++ agent_id ++ " not found") none))
  | some _ =>
      let r := s.kill_agent agent_id now
      (r.1, Except.ok r.2)

/-- Outcome of one network attempt as seen by AgentMolt._request
(client.py lines 89-123): a 2xx response with its decoded JSON body
(abstracted to a string), an HTTPError with its status code and the
server-provided message already extracted from the body, or a URLError
with its reason. -/
inductive Response where
  | success (result : String)
  | httpError (code : Nat) (msg : String)
  | netError (reason : String)
deriving DecidableEq, Repr

/-- Observable events of one _request call: a hook invocation with its
arguments, the start of a network attempt, or a backoff sleep. -/
inductive TraceEv where
  | preCall (hook method path : String) (payload : Option String)
  | attemptStart (n : Nat)
  | sleepFor (d : Frac)
  | postCall (hook method path : String) (payload : Option String) (result : String)
deriving DecidableEq, Repr

/-- Membership in _RETRYABLE_CODES, the set of the codes 429, 500, 502,
503, 504 (client.py line 21). -/
def retryable (code : Nat) : Bool :=
  code == 429 || code == 500 || code == 502 || code == 503 || code == 504

/-- The constant _BACKOFF_BASE = 0.5 (client.py line 20). -/
def backoffBase : Frac := ⟨1, 2⟩

/-- Backoff delay _BACKOFF_BASE * 2 ** attempt (client.py lines 104,
118). -/
def backoff (attempt : Nat) : Frac := backoffBase.mul (Frac.ofNat (2 ^ attempt))

/-- Terminal classification of an HTTPError (client.py lines 110-115):
401 to AuthenticationError, 404 to NotFoundError, anything else to
AgentMoltError, all carrying the status code. -/
def classifyHttp (code : Nat) (msg : String) : PyErr :=
  if code == 401 then PyErr.authenticationError msg (some code)
  else if code == 404 then PyErr.notFoundError msg (some code)
  else PyErr.agentMoltError msg (some code)

/-- The retry loop of AgentMolt._request (client.py lines 87-125),
`for attempt in range(self.max_retries)`. `script n` is the network's
response to attempt number `n`; `remaining` counts the attempts the range
still holds (initially max_retries, so `attempt < max_retries - 1` is
`1 ≤ remaining - 1`, i.e. `0 < r` in the `r+1` branch). The event list
records attempts and sleeps in order. -/
def attemptLoop (script : Nat → Response) :
    Nat → Nat → Option PyErr → Except PyErr String × List TraceEv
  | 0, _, lastExc =>
      (Except.error (lastExc.getD (PyErr.agentMoltError "Request failed after retries" none)), [])
  | r + 1, attempt, _ =>
    match script attempt with
    | Response.success result => (Except.ok result, [TraceEv.attemptStart attempt])
    | Response.httpError code msg =>
      if retryable code && decide (0 < r) then
        let rest := attemptLoop script r (attempt + 1) (some (PyErr.agentMoltError msg (some code)))
        (rest.1, TraceEv.attemptStart attempt :: TraceEv.sleepFor (backoff attempt) :: rest.2)
      else
        (Except.error (classifyHttp code msg), [TraceEv.attemptStart attempt])
    | Response.netError reason =>
      if 0 < r then
        let rest := attemptLoop script r (attempt + 1)
          (some (PyErr.agentMoltError ("Connection error: " ++ reason) none))
        (rest.1, TraceEv.attemptStart attempt :: TraceEv.sleepFor (backoff attempt) :: rest.2)
      else
        (Except.error (PyErr.agentMoltError ("Connection error: " ++ reason) none),
         [TraceEv.attemptStart attempt])

/-- One whole AgentMolt._request call without hooks: run the retry loop
from attempt 0 with no last error. -/
def runRequest (max_retries : Nat) (script : Nat → Response) :
    Except PyErr String × List TraceEv :=
  attemptLoop script max_retries 0 none

/-- Pre-hook invocations, one per registered hook in registration order,
each with (method, path, data) (client.py lines 77-78). -/
def hookPreCalls (preHooks : List String) (method path : String) (payload : Option String) :
    List TraceEv :=
  preHooks.map (fun h => TraceEv.preCall h method path payload)

/-- Post-hook invocations, one per registered hook in registration order,
each with (method, path, data, result) (client.py lines 93-94). -/
def hookPostCalls (postHooks : List String) (method path : String) (payload : Option String)
    (result : String) : List TraceEv :=
  postHooks.map (fun h => TraceEv.postCall h method path payload result)

/-- AgentMolt._request with its hook pipeline (client.py lines 76-125):
all pre-hooks fire once before the retry loop; on a terminal success the
post-hooks fire once, after which the result is returned; a raised error
propagates with no post-hook. Hooks are modelled as named observers. -/
def runRequestWithHooks (preHooks postHooks : List String) (max_retries : Nat)
    (script : Nat → Response) (method path : String) (payload : Option String) :
    Except PyErr String × List TraceEv :=
  let r := runRequest max_retries script
  match r.1 with
  | Except.ok result =>
      (r.1, hookPreCalls preHooks method path payload ++ r.2
              ++ hookPostCalls postHooks method path payload result)
  | Except.error _ =>
      (r.1, hookPreCalls preHooks method path payload ++ r.2)

/-- Sleeps of a trace, in order. -/
def delays (evs : List TraceEv) : List Frac :=
  evs.filterMap (fun e => match e with | TraceEv.sleepFor d => some d | _ => none)

/-- Holds of the events the retry loop itself emits (no hook calls). -/
def isNetworkEv : TraceEv → Bool
  | TraceEv.attemptStart _ => true
  | TraceEv.sleepFor _ => true
  | _ => false

/-- Number of network attempts recorded in a trace. -/
def countAttempts (evs : List TraceEv) : Nat :=
  evs.countP (fun e => match e with | TraceEv.attemptStart _ => true | _ => false)

section StoreLemmas

/-- The UPDATE of update_agent_status commutes with the point lookup of
get_agent: looking the agent up in the updated table returns the updated
version of whatever the lookup returned before. -/
lemma find?_map_setStatus (l : List Agent) (aid st now : String) :
    (l.map (fun a => if a.id == aid then { a with status := st, updated_at := now } else a)).find?
        (fun a => a.id == aid)
      = (l.find? (fun a => a.id == aid)).map
          (fun a => { a with status := st, updated_at := now }) := by
  induction l with
  | nil => rfl
  | cons a l ih =>
    by_cases h : a.id = aid
    · simp [h]
    · simp only [List.map_cons]
      rw [if_neg (by simpa using h), List.find?_cons_of_neg _ (by simpa using h),
        List.find?_cons_of_neg _ (by simpa using h), ih]

lemma get_agent_update_agent_status (s : Store) (aid st now : String) :
    Store.get_agent (s.update_agent_status aid st now).1 aid
      = (Store.get_agent s aid).map (fun a => { a with status := st, updated_at := now }) := by
  simp only [Store.update_agent_status, Store.get_agent]
  exact find?_map_setStatus s.agents aid st now

end StoreLemmas

/-- Claim C6: on the durable backend, kill(agent_id) raises NotFoundError
when no agent with that id exists, leaving every stored entity unchanged;
on an existing agent it sets that agent's status to "killed", so every
subsequent get_agent reports status "killed" until an explicit status
update changes it (the store operations that are not status updates leave
the lookup unchanged). -/
theorem C6_kill_agent (s : Store) (aid now : String) :
    (Store.get_agent s aid = none →
      localKill s aid now
        = (s, Except.error (PyErr.notFoundError ("Agent " ++ aid ++ " not found") none)))
    ∧ (∀ a, Store.get_agent s aid = some a →
        (localKill s aid now).2 = Except.ok ⟨"killed", aid⟩
        ∧ Store.get_agent (localKill s aid now).1 aid
            = some { a with status := "killed", updated_at := now })
    ∧ (∀ s2 : Store, ∀ eid n2 ag act tg st meta : String,
        Store.get_agent (Store.create_event s2 eid n2 ag act tg st meta).1 aid
          = Store.get_agent s2 aid)
    ∧ (∀ s2 : Store, ∀ mid n2 ag : String, ∀ tok : Int, ∀ c : Frac, ∀ tc fa : Int,
        ∀ meta : String,
        Store.get_agent (Store.create_metric s2 mid n2 ag tok c tc fa meta).1 aid
          = Store.get_agent s2 aid)
    ∧ (∀ s2 : Store, ∀ pid n2 rt v ag : String,
        Store.get_agent (Store.add_policy s2 pid n2 rt v ag).1 aid
          = Store.get_agent s2 aid) := by
  refine ⟨fun h => ?_, fun a h => ⟨?_, ?_⟩, fun s2 _ _ _ _ _ _ _ => rfl,
    fun s2 _ _ _ _ _ _ _ _ => rfl, fun s2 _ _ _ _ _ => rfl⟩
  · simp [localKill, h]
  · simp [localKill, h, Store.kill_agent]
  · simp only [localKill, h, Store.kill_agent]
    rw [get_agent_update_agent_status, h]
    rfl

/-- Witness for C6 at a concrete store holding one agent. -/
theorem C6_kill_agent_witness :
    (localKill
        (Store.create_agent emptyStore "a1" "t0" "bot" "gpt-4" "").1 "a1" "t1").2
      = Except.ok ⟨"killed", "a1"⟩
    ∧ Store.get_agent
        (localKill (Store.create_agent emptyStore "a1" "t0" "bot" "gpt-4" "").1 "a1" "t1").1 "a1"
      = some ⟨"a1", "bot", "gpt-4", "killed", "", "t0", "t1"⟩ := by
  have h := (C6_kill_agent (Store.create_agent emptyStore "a1" "t0" "bot" "gpt-4" "").1
    "a1" "t1").2.1 ⟨"a1", "bot", "gpt-4", "idle", "", "t0", "t0"⟩ (by decide)
  exact ⟨h.1, h.2⟩

/-- Claim C7: create_agent followed by get_agent with the returned id (the
uuid generator yielding an id no stored agent carries) returns an agent
record with the same id, name, and model, and status "idle". -/
theorem C7_create_then_get (s : Store) (aid now name model meta : String)
    (hfresh : ∀ a ∈ s.agents, a.id ≠ aid) :
    Store.get_agent (Store.create_agent s aid now name model meta).1 aid
      = some (Store.create_agent s aid now name model meta).2
    ∧ (Store.create_agent s aid now name model meta).2.id = aid
    ∧ (Store.create_agent s aid now name model meta).2.name = name
    ∧ (Store.create_agent s aid now name model meta).2.model = model
    ∧ (Store.create_agent s aid now name model meta).2.status = "idle" := by
  refine ⟨?_, rfl, rfl, rfl, rfl⟩
  simp only [Store.create_agent, Store.get_agent, List.find?_append]
  have hnone : s.agents.find? (fun a => a.id == aid) = none :=
    List.find?_eq_none.mpr (fun a ha => by simpa using hfresh a ha)
  rw [hnone]
  simp

/-- Witness for C7 on the empty store. -/
theorem C7_create_then_get_witness :
    Store.get_agent (Store.create_agent emptyStore "a1" "t0" "bot" "gpt-4" "").1 "a1"
      = some (Store.create_agent emptyStore "a1" "t0" "bot" "gpt-4" "").2
    ∧ (Store.create_agent emptyStore "a1" "t0" "bot" "gpt-4" "").2.id = "a1"
    ∧ (Store.create_agent emptyStore "a1" "t0" "bot" "gpt-4" "").2.name = "bot"
    ∧ (Store.create_agent emptyStore "a1" "t0" "bot" "gpt-4" "").2.model = "gpt-4"
    ∧ (Store.create_agent emptyStore "a1" "t0" "bot" "gpt-4" "").2.status = "idle" :=
  C7_create_then_get emptyStore "a1" "t0" "bot" "gpt-4" "" (by decide)

/-- Claim C9, counterexample: create_metric performs no validation, so a
caller-supplied negative value is stored verbatim — the created Metric
record has tokens_used = -1 < 0 and negative cost, and sits in the
store. -/
theorem C9_counterexample :
    (Store.create_metric emptyStore "m1" "t0" "a1" (-1) ⟨-1, 2⟩ (-2) (-3) "").2.tokens_used = -1
    ∧ (Store.create_metric emptyStore "m1" "t0" "a1" (-1) ⟨-1, 2⟩ (-2) (-3) "").2
        ∈ (Store.create_metric emptyStore "m1" "t0" "a1" (-1) ⟨-1, 2⟩ (-2) (-3) "").1.metrics
    ∧ ¬ (0 ≤ (Store.create_metric emptyStore "m1" "t0" "a1" (-1) ⟨-1, 2⟩ (-2) (-3) "").2.tokens_used)
    ∧ Frac.le Frac.zero
        (Store.create_metric emptyStore "m1" "t0" "a1" (-1) ⟨-1, 2⟩ (-2) (-3) "").2.cost
      = false := by
  decide

/-- Claim C9 as amended: create_metric stores exactly the caller-supplied
values, so the created and stored Metric record has non-negative
tokens_used, cost, tool_calls, and files_accessed whenever the caller
supplies non-negative values (the defaults being 0, this covers omitted
arguments). -/
theorem C9_passthrough (s : Store) (mid now aid : String) (tok : Int) (cost : Frac)
    (tc fa : Int) (meta : String)
    (htok : 0 ≤ tok) (hcost : Frac.le Frac.zero cost = true) (htc : 0 ≤ tc) (hfa : 0 ≤ fa) :
    (Store.create_metric s mid now aid tok cost tc fa meta).2.tokens_used = tok
    ∧ (Store.create_metric s mid now aid tok cost tc fa meta).2.cost = cost
    ∧ (Store.create_metric s mid now aid tok cost tc fa meta).2.tool_calls = tc
    ∧ (Store.create_metric s mid now aid tok cost tc fa meta).2.files_accessed = fa
    ∧ 0 ≤ (Store.create_metric s mid now aid tok cost tc fa meta).2.tokens_used
    ∧ Frac.le Frac.zero (Store.create_metric s mid now aid tok cost tc fa meta).2.cost = true
    ∧ 0 ≤ (Store.create_metric s mid now aid tok cost tc fa meta).2.tool_calls
    ∧ 0 ≤ (Store.create_metric s mid now aid tok cost tc fa meta).2.files_accessed
    ∧ (Store.create_metric s mid now aid tok cost tc fa meta).1.metrics
        = s.metrics ++ [(Store.create_metric s mid now aid tok cost tc fa meta).2] :=
  ⟨rfl, rfl, rfl, rfl, htok, hcost, htc, hfa, rfl⟩

/-- Witness for C9 at the default-like inputs of the SDK's log_metric. -/
theorem C9_passthrough_witness :
    (Store.create_metric emptyStore "m1" "t0" "a1" 500 ⟨1, 100⟩ 0 0 "").2.tokens_used = 500
    ∧ (Store.create_metric emptyStore "m1" "t0" "a1" 500 ⟨1, 100⟩ 0 0 "").2.cost = ⟨1, 100⟩
    ∧ (Store.create_metric emptyStore "m1" "t0" "a1" 500 ⟨1, 100⟩ 0 0 "").2.tool_calls = 0
    ∧ (Store.create_metric emptyStore "m1" "t0" "a1" 500 ⟨1, 100⟩ 0 0 "").2.files_accessed = 0
    ∧ 0 ≤ (Store.create_metric emptyStore "m1" "t0" "a1" 500 ⟨1, 100⟩ 0 0 "").2.tokens_used
    ∧ Frac.le Frac.zero (Store.create_metric emptyStore "m1" "t0" "a1" 500 ⟨1, 100⟩ 0 0 "").2.cost
        = true
    ∧ 0 ≤ (Store.create_metric emptyStore "m1" "t0" "a1" 500 ⟨1, 100⟩ 0 0 "").2.tool_calls
    ∧ 0 ≤ (Store.create_metric emptyStore "m1" "t0" "a1" 500 ⟨1, 100⟩ 0 0 "").2.files_accessed
    ∧ (Store.create_metric emptyStore "m1" "t0" "a1" 500 ⟨1, 100⟩ 0 0 "").1.metrics
        = emptyStore.metrics ++ [(Store.create_metric emptyStore "m1" "t0" "a1" 500 ⟨1, 100⟩ 0 0 "").2] :=
  C9_passthrough emptyStore "m1" "t0" "a1" 500 ⟨1, 100⟩ 0 0 "" (by decide) (by decide)
    (by decide) (by decide)

/-- Claim C10: for an agent id with zero metric rows (whether or not any
agent with that id was ever registered), get_metrics_summary returns the
all-zero summary rather than nulls or an error. -/
theorem C10_empty_summary (s : Store) (aid : String)
    (h : s.metrics.filter (fun m => m.agent_id == aid) = []) :
    Store.get_metrics_summary s aid = ⟨0, Frac.zero, 0, 0⟩ := by
  simp [Store.get_metrics_summary, h]

/-- Witness for C10: a store holding a metric row for another agent still
reports the all-zero summary for an unregistered id. -/
theorem C10_empty_summary_witness :
    Store.get_metrics_summary
        (Store.create_metric emptyStore "m1" "t0" "other" 7 ⟨1, 2⟩ 1 1 "").1 "ghost"
      = ⟨0, Frac.zero, 0, 0⟩ :=
  C10_empty_summary (Store.create_metric emptyStore "m1" "t0" "other" 7 ⟨1, 2⟩ 1 1 "").1
    "ghost" (by decide)

/-- Store fixture: an allowlist rule permitting "push" registered before a
denylist rule for the same action. -/
def storeDenyAndAllow : Store :=
  { emptyStore with policies :=
      [⟨"p1", "allowlist", "push", "", "t1"⟩, ⟨"p2", "denylist", "push", "", "t2"⟩] }

/-- Claim C1: whenever the rules in scope for the agent contain a denylist
rule whose value equals the action, check_policy denies with a reason and
policy_id identifying a matching denylist rule — regardless of any
allowlist rule in scope, since the denylist loop runs before the
allowlist loop. -/
theorem C1_denylist_wins (s : Store) (aid action : String)
    (h : ∃ p ∈ s.list_policies aid, p.rule_type = "denylist" ∧ p.value = action) :
    ∃ q ∈ s.list_policies aid, q.rule_type = "denylist" ∧ q.value = action ∧
      s.check_policy aid action
        = Except.ok ⟨false, denyReason action q.id, some q.id⟩ := by
  obtain ⟨p, hp, hty, hv⟩ := h
  have hsome : ((s.list_policies aid).find?
      (fun p => p.rule_type == "denylist" && action == p.value)).isSome := by
    rw [List.find?_isSome]
    exact ⟨p, hp, by simp [hty, hv]⟩
  obtain ⟨q, hq⟩ := Option.isSome_iff_exists.mp hsome
  have hqp := List.find?_some hq
  have hqmem := List.mem_of_find?_eq_some hq
  simp only [Bool.and_eq_true, beq_iff_eq] at hqp
  refine ⟨q, hqmem, hqp.1, hqp.2.symm, ?_⟩
  simp [Store.check_policy, denylistPass, hq]

/-- Witness for C1: with an allowlist rule permitting "push" in scope, a
denylist rule for "push" still decides, denying with that rule's id. -/
theorem C1_denylist_wins_witness :
    ∃ q ∈ storeDenyAndAllow.list_policies "a1", q.rule_type = "denylist" ∧ q.value = "push" ∧
      storeDenyAndAllow.check_policy "a1" "push"
        = Except.ok ⟨false, denyReason "push" q.id, some q.id⟩ :=
  C1_denylist_wins storeDenyAndAllow "a1" "push"
    ⟨⟨"p2", "denylist", "push", "", "t2"⟩, by decide, by decide, by decide⟩

/-- Store fixture: one global allowlist rule permitting "search". -/
def storeOneAllow : Store :=
  { emptyStore with policies := [⟨"p1", "allowlist", "search", "", "t1"⟩] }

/-- Store fixture: a denylist rule for "delete" registered before an
allowlist rule permitting "search". -/
def storeDenyThenAllow : Store :=
  { emptyStore with policies :=
      [⟨"p1", "denylist", "delete", "", "t1"⟩, ⟨"p2", "allowlist", "search", "", "t2"⟩] }

/-- Claim C2, counterexample: with a denylist rule for "delete" (p1) and
an allowlist rule for "search" (p2) in scope, the action "delete" equals
no allowlist value, yet check_policy denies with the denylist reason and
policy_id p1 — not, as the claim states, with reason "not in allowlist"
and the first allowlist rule's id p2. -/
theorem C2_counterexample :
    (storeDenyThenAllow.list_policies "a1").find? (fun r => r.rule_type == "allowlist")
        = some ⟨"p2", "allowlist", "search", "", "t2"⟩
    ∧ (allowlistValues (storeDenyThenAllow.list_policies "a1")).contains "delete" = false
    ∧ storeDenyThenAllow.check_policy "a1" "delete"
        = Except.ok ⟨false, denyReason "delete" "p1", some "p1"⟩
    ∧ storeDenyThenAllow.check_policy "a1" "delete"
        ≠ Except.ok ⟨false, notInAllowlistReason "delete", some "p2"⟩ := by
  decide

/-- Claim C2 as amended: for every agent whose in-scope rules contain at
least one allowlist rule, check_policy returns allowed = false with the
"not in allowlist" reason and the policy_id of the first allowlist rule
in listing order whenever the action equals no allowlist rule's value,
provided no denylist rule in scope matches the action; if the action
equals some allowlist value the allowlist pass does not deny; if no
allowlist rules are in scope the pass is a no-op. In particular, with one
allowlist rule for "search", check_policy allows "search" and denies
"delete". -/
theorem C2_allowlist_pass :
    (∀ (s : Store) (aid action : String) (p : Policy),
        (s.list_policies aid).find? (fun r => r.rule_type == "allowlist") = some p →
        (allowlistValues (s.list_policies aid)).contains action = false →
        denylistPass (s.list_policies aid) action = none →
        s.check_policy aid action
          = Except.ok ⟨false, notInAllowlistReason action, some p.id⟩)
    ∧ (∀ (ps : List Policy) (action : String),
        (allowlistValues ps).contains action = true → allowlistPass ps action = none)
    ∧ (∀ (ps : List Policy) (action : String),
        ps.find? (fun r => r.rule_type == "allowlist") = none → allowlistPass ps action = none)
    ∧ storeOneAllow.check_policy "a1" "search" = Except.ok ⟨true, "allowed", none⟩
    ∧ storeOneAllow.check_policy "a1" "delete"
        = Except.ok ⟨false, notInAllowlistReason "delete", some "p1"⟩ := by
  refine ⟨fun s aid action p hfind hmem hdeny => ?_, fun ps action hmem => ?_,
    fun ps action hfind => ?_, by decide, by decide⟩
  · simp at hmem
    simp [Store.check_policy, hdeny, allowlistPass, hfind, hmem]
  · simp at hmem
    simp only [allowlistPass]
    cases hf : ps.find? (fun r => r.rule_type == "allowlist") with
    | none => rfl
    | some p => simp [hmem]
  · simp [allowlistPass, hfind]

/-- Witness for C2 applying the amended first part: one allowlist rule for
"search" and the action "delete" not in the allowlist. -/
theorem C2_allowlist_pass_witness :
    storeOneAllow.check_policy "a1" "delete"
      = Except.ok ⟨false, notInAllowlistReason "delete", some "p1"⟩ :=
  C2_allowlist_pass.1 storeOneAllow "a1" "delete" ⟨"p1", "allowlist", "search", "", "t1"⟩
    (by decide) (by decide) (by decide)

/-- The limit loop processes a concatenation left to right: the right part
runs only if the left part neither decides nor raises. -/
lemma limitsPass_append (s : Store) (aid : String) (l₁ l₂ : List Policy) :
    limitsPass s aid (l₁ ++ l₂)
      = match limitsPass s aid l₁ with
        | Except.error e => Except.error e
        | Except.ok (some r) => Except.ok (some r)
        | Except.ok none => limitsPass s aid l₂ := by
  induction l₁ with
  | nil => simp [limitsPass]
  | cons p l₁ ih =>
    simp only [List.cons_append, limitsPass]
    by_cases hc : p.rule_type == "cost_limit"
    · simp only [hc, if_true]
      cases pyFloat p.value with
      | none => rfl
      | some limit =>
        by_cases hle : Frac.le limit (s.get_metrics_summary aid).cost
        · simp [hle]
        · simp [hle, ih]
    · by_cases ht : p.rule_type == "token_limit"
      · simp only [hc, ht, if_false, if_true]
        cases pyInt p.value with
        | none => rfl
        | some limit =>
          by_cases hle : (s.get_metrics_summary aid).tokens_used ≥ limit
          · simp [hle]
          · simp [hle, ih]
      · simp only [hc, ht, if_false]
        exact ih

/-- Store fixture: a global cost_limit rule of "1.00" and one metric row
of cost 1.5 for agent "a". -/
def storeCostOver : Store :=
  { emptyStore with
      metrics := [⟨"m1", "a", 0, ⟨15, 10⟩, 0, 0, "", "t0"⟩],
      policies := [⟨"p1", "cost_limit", "1.00", "", "t1"⟩] }

/-- Store fixture: a global cost_limit rule of "1.00" and one metric row
of cost 0.5 for agent "a". -/
def storeCostUnder : Store :=
  { emptyStore with
      metrics := [⟨"m1", "a", 0, ⟨5, 10⟩, 0, 0, "", "t0"⟩],
      policies := [⟨"p1", "cost_limit", "1.00", "", "t1"⟩] }

/-- Store fixture: a global cost_limit rule of "10.0" followed by a
token_limit rule of "5", and one metric row for agent "a" with 100 tokens
and zero cost. -/
def storeLaterLimit : Store :=
  { emptyStore with
      metrics := [⟨"m1", "a", 100, ⟨0, 1⟩, 0, 0, "", "t0"⟩],
      policies := [⟨"p1", "cost_limit", "10.0", "", "t1"⟩,
                   ⟨"p2", "token_limit", "5", "", "t2"⟩] }

/-- Claim C3, counterexample: agent "a" has a cost_limit rule in scope
with threshold 10, no earlier decisive rule, and accumulated cost 0 < 10,
yet check_policy denies — a later token_limit rule fires — so
"check_policy denies exactly when accumulated cost ≥ L" fails, as does
the reason mentioning the cost threshold. -/
theorem C3_counterexample :
    storeLaterLimit.list_policies "a"
        = [⟨"p1", "cost_limit", "10.0", "", "t1"⟩, ⟨"p2", "token_limit", "5", "", "t2"⟩]
    ∧ pyFloat "10.0" = some ⟨100, 10⟩
    ∧ denylistPass (storeLaterLimit.list_policies "a") "go" = none
    ∧ allowlistPass (storeLaterLimit.list_policies "a") "go" = none
    ∧ (storeLaterLimit.get_metrics_summary "a").cost = ⟨0, 1⟩
    ∧ Frac.le ⟨100, 10⟩ (storeLaterLimit.get_metrics_summary "a").cost = false
    ∧ storeLaterLimit.check_policy "a" "go"
        = Except.ok ⟨false, tokenReason 5 100, some "p2"⟩ := by
  decide

/-- Claim C3 as amended: with a cost_limit rule (value parsing to
threshold L) in scope and no earlier decisive rule — the denylist and
allowlist passes decide nothing and the limit rules before it neither
decide nor raise — check_policy denies with a reason mentioning both the
threshold and the accumulated cost whenever accumulated cost ≥ L; when
accumulated cost < L that rule does not fire, so check_policy allows
provided no later limit rule decides or raises. Symmetrically for
token_limit with summed tokens_used and an integer threshold. -/
theorem C3_limit_rules :
    (∀ (s : Store) (aid action : String) (l₁ l₂ : List Policy) (p : Policy) (L : Frac),
        s.list_policies aid = l₁ ++ p :: l₂ →
        denylistPass (s.list_policies aid) action = none →
        allowlistPass (s.list_policies aid) action = none →
        limitsPass s aid l₁ = Except.ok none →
        p.rule_type = "cost_limit" →
        pyFloat p.value = some L →
        (Frac.le L (s.get_metrics_summary aid).cost = true →
          s.check_policy aid action
            = Except.ok ⟨false, costReason L (s.get_metrics_summary aid).cost, some p.id⟩)
        ∧ (Frac.le L (s.get_metrics_summary aid).cost = false →
          limitsPass s aid l₂ = Except.ok none →
          s.check_policy aid action = Except.ok ⟨true, "allowed", none⟩))
    ∧ (∀ (s : Store) (aid action : String) (l₁ l₂ : List Policy) (p : Policy) (L : Int),
        s.list_policies aid = l₁ ++ p :: l₂ →
        denylistPass (s.list_policies aid) action = none →
        allowlistPass (s.list_policies aid) action = none →
        limitsPass s aid l₁ = Except.ok none →
        p.rule_type = "token_limit" →
        pyInt p.value = some L →
        (L ≤ (s.get_metrics_summary aid).tokens_used →
          s.check_policy aid action
            = Except.ok
                ⟨false, tokenReason L (s.get_metrics_summary aid).tokens_used, some p.id⟩)
        ∧ (¬ L ≤ (s.get_metrics_summary aid).tokens_used →
          limitsPass s aid l₂ = Except.ok none →
          s.check_policy aid action = Except.ok ⟨true, "allowed", none⟩)) := by
  constructor
  · intro s aid action l₁ l₂ p L hsplit hdeny hallow hl₁ hty hparse
    rw [hsplit] at hdeny hallow
    constructor
    · intro hle
      simp only [Store.check_policy, hsplit, limitsPass_append, hl₁, limitsPass,
        hty, hparse, hle]
      simp [hdeny, hallow]
    · intro hle hl₂
      simp only [Store.check_policy, hsplit, limitsPass_append, hl₁, limitsPass,
        hty, hparse, hle]
      simp [hdeny, hallow, hl₂]
  · intro s aid action l₁ l₂ p L hsplit hdeny hallow hl₁ hty hparse
    rw [hsplit] at hdeny hallow
    constructor
    · intro hle
      simp only [Store.check_policy, hsplit, limitsPass_append, hl₁, limitsPass,
        hty, hparse]
      simp [hdeny, hallow, hle, ge_iff_le]
    · intro hle hl₂
      simp only [Store.check_policy, hsplit, limitsPass_append, hl₁, limitsPass,
        hty, hparse]
      simp [hdeny, hallow, hle, ge_iff_le, hl₂]

/-- Witness for C3: accumulated cost 1.5 against a cost_limit of "1.00"
denies with a reason carrying both numbers; accumulated cost 0.5 against
the same limit allows. -/
theorem C3_limit_rules_witness :
    storeCostOver.check_policy "a" "anything"
      = Except.ok ⟨false, costReason ⟨100, 100⟩ ⟨15, 10⟩, some "p1"⟩
    ∧ storeCostUnder.check_policy "a" "anything" = Except.ok ⟨true, "allowed", none⟩ :=
  ⟨by
    have h := (C3_limit_rules.1 storeCostOver "a" "anything" []
      [] ⟨"p1", "cost_limit", "1.00", "", "t1"⟩ ⟨100, 100⟩ (by decide) (by decide) (by decide)
      (by decide) (by decide) (by decide)).1 (by decide)
    simpa using h,
   by
    have h := (C3_limit_rules.1 storeCostUnder "a" "anything" []
      [] ⟨"p1", "cost_limit", "1.00", "", "t1"⟩ ⟨100, 100⟩ (by decide) (by decide) (by decide)
      (by decide) (by decide) (by decide)).2 (by decide) (by decide)
    simpa using h⟩

/-- Well-formedness of a limit rule's value: cost_limit values parse as
floats and token_limit values as ints. -/
def limitOk (p : Policy) : Prop :=
  (p.rule_type = "cost_limit" → (pyFloat p.value).isSome = true)
  ∧ (p.rule_type = "token_limit" → (pyInt p.value).isSome = true)

instance limitOkDecidable (p : Policy) : Decidable (limitOk p) := by
  unfold limitOk
  infer_instance

/-- When every limit rule's value parses, the limit loop cannot raise. -/
lemma limitsPass_no_error (s : Store) (aid : String) (ps : List Policy)
    (h : ∀ p ∈ ps, limitOk p) : ∃ o, limitsPass s aid ps = Except.ok o := by
  induction ps with
  | nil => exact ⟨none, rfl⟩
  | cons p ps ih =>
    have hp := h p (List.mem_cons_self p ps)
    have hps := ih (fun q hq => h q (List.mem_cons_of_mem p hq))
    simp only [limitsPass]
    by_cases hc : p.rule_type == "cost_limit"
    · simp only [hc, if_true]
      obtain ⟨L, hL⟩ := Option.isSome_iff_exists.mp (hp.1 (by simpa using hc))
      rw [hL]
      by_cases hle : Frac.le L (s.get_metrics_summary aid).cost
      · exact ⟨some ⟨false, costReason L (s.get_metrics_summary aid).cost, some p.id⟩,
          by simp [hle]⟩
      · simpa [hle] using hps
    · by_cases ht : p.rule_type == "token_limit"
      · simp only [hc, ht, if_false, if_true]
        obtain ⟨L, hL⟩ := Option.isSome_iff_exists.mp (hp.2 (by simpa using ht))
        rw [hL]
        by_cases hle : (s.get_metrics_summary aid).tokens_used ≥ L
        · exact ⟨some ⟨false, tokenReason L (s.get_metrics_summary aid).tokens_used, some p.id⟩,
            by simp [hle]⟩
        · simpa [hle] using hps
      · simpa [hc, ht] using hps

/-- Store fixture: a single global cost_limit rule whose value "abc" is
not numeric. -/
def storeBadLimit : Store :=
  { emptyStore with policies := [⟨"p1", "cost_limit", "abc", "", "t1"⟩] }

/-- Claim C4, counterexample: with a cost_limit rule whose value is the
arbitrary string "abc", check_policy raises ValueError (float("abc"))
instead of returning a PolicyResult. -/
theorem C4_counterexample :
    storeBadLimit.check_policy "a1" "x" = Except.error (PyErr.valueError "abc")
    ∧ ∀ r : PolicyResult, storeBadLimit.check_policy "a1" "x" ≠ Except.ok r := by
  refine ⟨by decide, fun r h => ?_⟩
  rw [show storeBadLimit.check_policy "a1" "x" = Except.error (PyErr.valueError "abc")
    from by decide] at h
  exact Except.noConfusion h

/-- Claim C4 as amended: check_policy returns a PolicyResult (it never
raises) for every agent id and action whenever every cost_limit and
token_limit rule in scope carries a value that parses as a number; a
malformed limit value makes it raise the parse error instead. When zero
rules are in scope for the agent it returns allowed = true with reason
"allowed" for every action. -/
theorem C4_total_on_wellformed :
    (∀ (s : Store) (aid action : String),
        (∀ p ∈ s.list_policies aid, limitOk p) →
        ∃ r, s.check_policy aid action = Except.ok r)
    ∧ (∀ (s : Store) (aid action : String),
        s.list_policies aid = [] →
        s.check_policy aid action = Except.ok ⟨true, "allowed", none⟩) := by
  constructor
  · intro s aid action h
    simp only [Store.check_policy]
    cases hd : denylistPass (s.list_policies aid) action with
    | some r => exact ⟨r, rfl⟩
    | none =>
      cases ha : allowlistPass (s.list_policies aid) action with
      | some r => exact ⟨r, rfl⟩
      | none =>
        obtain ⟨o, ho⟩ := limitsPass_no_error s aid (s.list_policies aid) h
        cases o with
        | some r => exact ⟨r, by rw [ho]⟩
        | none => exact ⟨⟨true, "allowed", none⟩, by rw [ho]⟩
  · intro s aid action h
    simp [Store.check_policy, h, denylistPass, allowlistPass, limitsPass]

/-- Witness for C4: an agent with no rules in scope is allowed any
action, and a store whose only limit rule is well-formed yields a result
for any action. -/
theorem C4_total_on_wellformed_witness :
    emptyStore.check_policy "a1" "anything" = Except.ok ⟨true, "allowed", none⟩
    ∧ ∃ r, storeCostUnder.check_policy "ghost" "x" = Except.ok r :=
  ⟨C4_total_on_wellformed.2 emptyStore "a1" "anything" (by decide),
   C4_total_on_wellformed.1 storeCostUnder "ghost" "x" (by decide)⟩

/-- The retry loop makes at most as many attempts as the range holds. -/
lemma countAttempts_attemptLoop (script : Nat → Response) :
    ∀ (r a : Nat) (e : Option PyErr), countAttempts (attemptLoop script r a e).2 ≤ r := by
  intro r
  induction r with
  | zero => intro a e; simp [attemptLoop, countAttempts]
  | succ r ih =>
    intro a e
    simp only [attemptLoop]
    cases script a with
    | success result => simp [countAttempts]
    | httpError code msg =>
      by_cases hc : retryable code && decide (0 < r)
      · simp only [hc, if_true, countAttempts, List.countP_cons]
        have := ih (a + 1) (some (PyErr.agentMoltError msg (some code)))
        simp only [countAttempts] at this
        simp
        omega
      · simp [hc, countAttempts]
    | netError reason =>
      by_cases hn : 0 < r
      · simp only [hn, if_true, countAttempts, List.countP_cons]
        have := ih (a + 1)
          (some (PyErr.agentMoltError ("Connection error: " ++ reason) none))
        simp only [countAttempts] at this
        simp
        omega
      · simp [hn, countAttempts]

/-- Every event the retry loop itself emits is an attempt or a sleep:
hook calls happen only outside it. -/
lemma attemptLoop_events (script : Nat → Response) :
    ∀ (r a : Nat) (e : Option PyErr), ∀ ev ∈ (attemptLoop script r a e).2,
      isNetworkEv ev = true := by
  intro r
  induction r with
  | zero => intro a e ev h; simp [attemptLoop] at h
  | succ r ih =>
    intro a e ev h
    simp only [attemptLoop] at h
    cases hs : script a with
    | success result =>
      rw [hs] at h
      simp at h
      subst h
      rfl
    | httpError code msg =>
      rw [hs] at h
      by_cases hc : retryable code && decide (0 < r)
      · simp [hc] at h
        rcases h with h | h | h
        · subst h; rfl
        · subst h; rfl
        · exact ih (a + 1) (some (PyErr.agentMoltError msg (some code))) ev h
      · simp [hc] at h
        subst h
        rfl
    | netError reason =>
      rw [hs] at h
      by_cases hn : 0 < r
      · simp [hn] at h
        rcases h with h | h | h
        · subst h; rfl
        · subst h; rfl
        · exact ih (a + 1)
            (some (PyErr.agentMoltError ("Connection error: " ++ reason) none)) ev h
      · simp [hn] at h
        subst h
        rfl

/-- Network fixture: attempts 0 and 1 answer 503, attempt 2 succeeds. -/
def scriptTwo503 : Nat → Response := fun n =>
  if n == 0 then Response.httpError 503 "overloaded"
  else if n == 1 then Response.httpError 503 "overloaded"
  else Response.success "ok"

/-- Network fixture: every attempt answers 503. -/
def scriptAll503 : Nat → Response := fun _ => Response.httpError 503 "overloaded"

/-- Claim C5: at most max_retries attempts are made; an attempt failing
with a retryable HTTP status (429, 500, 502, 503, 504) or a network-level
error is retried after a delay of base * 2^attempt (base 0.5) provided
attempts remain, and otherwise the last error is surfaced. The response
sequence [503, 503, 200] with max_retries = 3 succeeds after exactly the
delays 0.5 and 1.0; three consecutive 503s with max_retries = 3 surface
the terminal 503 error after exactly three attempts, with no fourth. -/
theorem C5_retry_policy :
    (∀ (m : Nat) (script : Nat → Response), countAttempts (runRequest m script).2 ≤ m)
    ∧ (∀ (script : Nat → Response) (r a : Nat) (e : Option PyErr) (code : Nat) (msg : String),
        script a = Response.httpError code msg → retryable code = true → 0 < r →
        attemptLoop script (r + 1) a e
          = ((attemptLoop script r (a + 1) (some (PyErr.agentMoltError msg (some code)))).1,
             TraceEv.attemptStart a :: TraceEv.sleepFor (backoff a) ::
               (attemptLoop script r (a + 1) (some (PyErr.agentMoltError msg (some code)))).2))
    ∧ (∀ (script : Nat → Response) (r a : Nat) (e : Option PyErr) (reason : String),
        script a = Response.netError reason → 0 < r →
        attemptLoop script (r + 1) a e
          = ((attemptLoop script r (a + 1)
                (some (PyErr.agentMoltError ("Connection error: " ++ reason) none))).1,
             TraceEv.attemptStart a :: TraceEv.sleepFor (backoff a) ::
               (attemptLoop script r (a + 1)
                 (some (PyErr.agentMoltError ("Connection error: " ++ reason) none))).2))
    ∧ (∀ (script : Nat → Response) (a : Nat) (e : Option PyErr) (code : Nat) (msg : String),
        script a = Response.httpError code msg →
        attemptLoop script 1 a e
          = (Except.error (classifyHttp code msg), [TraceEv.attemptStart a]))
    ∧ (∀ (script : Nat → Response) (a : Nat) (e : Option PyErr) (reason : String),
        script a = Response.netError reason →
        attemptLoop script 1 a e
          = (Except.error (PyErr.agentMoltError ("Connection error: " ++ reason) none),
             [TraceEv.attemptStart a]))
    ∧ (runRequest 3 scriptTwo503
          = (Except.ok "ok",
             [TraceEv.attemptStart 0, TraceEv.sleepFor (backoff 0), TraceEv.attemptStart 1,
              TraceEv.sleepFor (backoff 1), TraceEv.attemptStart 2])
        ∧ delays (runRequest 3 scriptTwo503).2 = [backoff 0, backoff 1]
        ∧ Frac.eqv (backoff 0) ⟨1, 2⟩ = true
        ∧ Frac.eqv (backoff 1) ⟨1, 1⟩ = true
        ∧ countAttempts (runRequest 3 scriptTwo503).2 = 3)
    ∧ (runRequest 3 scriptAll503
          = (Except.error (PyErr.agentMoltError "overloaded" (some 503)),
             [TraceEv.attemptStart 0, TraceEv.sleepFor (backoff 0), TraceEv.attemptStart 1,
              TraceEv.sleepFor (backoff 1), TraceEv.attemptStart 2])
        ∧ countAttempts (runRequest 3 scriptAll503).2 = 3) := by
  refine ⟨fun m script => countAttempts_attemptLoop script m 0 none,
    fun script r a e code msg hs hretry hr => ?_,
    fun script r a e reason hs hr => ?_,
    fun script a e code msg hs => ?_,
    fun script a e reason hs => ?_,
    by decide, by decide⟩
  · simp [attemptLoop, hs, hretry, hr]
  · simp [attemptLoop, hs, hr]
  · simp [attemptLoop, hs]
  · simp [attemptLoop, hs]

/-- Witness for C5: the retry step at a concrete script, attempt 0,
remaining = 2, on a 503 response. -/
theorem C5_retry_policy_witness :
    attemptLoop scriptAll503 2 0 none
      = ((attemptLoop scriptAll503 1 1 (some (PyErr.agentMoltError "overloaded" (some 503)))).1,
         TraceEv.attemptStart 0 :: TraceEv.sleepFor (backoff 0) ::
           (attemptLoop scriptAll503 1 1
             (some (PyErr.agentMoltError "overloaded" (some 503)))).2) :=
  C5_retry_policy.2.1 scriptAll503 1 0 none 503 "overloaded" rfl (by decide) (by decide)

/-- Network fixture: the first attempt succeeds. -/
def scriptOk : Nat → Response := fun _ => Response.success "ok"

/-- Claim C8: per logical _request call, every registered pre-hook is
invoked exactly once — before any network attempt, not once per retry —
in registration order with (method, path, payload); every registered
post-hook is invoked exactly once, in registration order with (method,
path, payload, result), only after a terminal success; no post-hook runs
on a call that ultimately fails. The trace is exactly the pre-hook calls,
then only network events, then (on success alone) the post-hook calls. -/
theorem C8_hook_pipeline :
    ∀ (preHooks postHooks : List String) (m : Nat) (script : Nat → Response)
      (method path : String) (payload : Option String),
      (∀ ev ∈ (attemptLoop script m 0 none).2, isNetworkEv ev = true)
      ∧ (∀ result,
          (runRequestWithHooks preHooks postHooks m script method path payload).1
            = Except.ok result →
          (runRequestWithHooks preHooks postHooks m script method path payload).2
            = hookPreCalls preHooks method path payload ++ (attemptLoop script m 0 none).2
                ++ hookPostCalls postHooks method path payload result)
      ∧ (∀ err,
          (runRequestWithHooks preHooks postHooks m script method path payload).1
            = Except.error err →
          (runRequestWithHooks preHooks postHooks m script method path payload).2
            = hookPreCalls preHooks method path payload ++ (attemptLoop script m 0 none).2) := by
  intro preHooks postHooks m script method path payload
  refine ⟨attemptLoop_events script m 0 none, fun result hok => ?_, fun err herr => ?_⟩
  · simp only [runRequestWithHooks, runRequest] at hok ⊢
    cases hr : (attemptLoop script m 0 none).1 with
    | ok r0 =>
      rw [hr] at hok
      have hre : r0 = result := by simpa using hok
      subst hre
      rfl
    | error e0 =>
      rw [hr] at hok
      exact Except.noConfusion hok
  · simp only [runRequestWithHooks, runRequest] at herr ⊢
    cases hr : (attemptLoop script m 0 none).1 with
    | ok r0 =>
      rw [hr] at herr
      exact Except.noConfusion herr
    | error e0 => rfl

/-- Witness for C8: two pre-hooks and one post-hook around an immediately
successful call. -/
theorem C8_hook_pipeline_witness :
    (runRequestWithHooks ["h1", "h2"] ["k1"] 1 scriptOk "GET" "/api/v1/agents" none).2
      = hookPreCalls ["h1", "h2"] "GET" "/api/v1/agents" none
          ++ (attemptLoop scriptOk 1 0 none).2
          ++ hookPostCalls ["k1"] "GET" "/api/v1/agents" none "ok" :=
  (C8_hook_pipeline ["h1", "h2"] ["k1"] 1 scriptOk "GET" "/api/v1/agents" none).2.1 "ok"
    (by decide)

end AgentMolt
